import Mathlib

/-!
Shallow embedding of the extraction-repair and cross-validation engine of
`test.py` (annual-report financial reconciliation).  Python floats are
modelled as rationals (`ℚ`), strings as Lean `String`, the mutable year
dictionary as the structure `YearRecord`, and the PDF document as the list
of its pages' extracted text (`List String`).  The external oracle calls
are modelled by passing the oracle's structured reply as an argument.
-/

namespace IbAnalyst

/-! ## String utilities (`norm_spaces`, lowercasing, substring tests) -/

/-- Python `\s` on the ASCII range (spec data is ASCII). -/
def isPySpace (c : Char) : Bool :=
  c = ' ' || c = '\t' || c = '\n' || c = '\r' || c = '\x0b' || c = '\x0c'

/-- Collapse consecutive spaces to a single space. -/
def squeezeSpaces : List Char → List Char
  | [] => []
  | [c] => [c]
  | a :: b :: rest =>
    if a = ' ' && b = ' ' then squeezeSpaces (b :: rest)
    else a :: squeezeSpaces (b :: rest)

/-- Replace the horizontal-ellipsis character by three dots (`.replace("…", "...")`). -/
def replaceEllipsis (cs : List Char) : List Char :=
  cs.flatMap fun c => if c = '…' then ['.', '.', '.'] else [c]

/-- `norm_spaces` from `test.py`: ellipsis replacement, whitespace-run collapse, strip. -/
def norm_spaces (s : String) : String :=
  let cs := (replaceEllipsis s.data).map fun c => if isPySpace c then ' ' else c
  String.mk (((squeezeSpaces cs).dropWhile (· = ' ')).reverse.dropWhile (· = ' ')).reverse

/-- Python `str.lower()` (ASCII). -/
def pyLower (s : String) : String := String.mk (s.data.map Char.toLower)

/-- Python `str.strip()`. -/
def pyStrip (s : String) : String :=
  String.mk (((s.data.dropWhile (isPySpace ·)).reverse.dropWhile (isPySpace ·)).reverse)

/-- Substring test on character lists (Python `needle in hay`). -/
def hasSub (n : List Char) : List Char → Bool
  | [] => n.isEmpty
  | c :: rest => n.isPrefixOf (c :: rest) || hasSub n rest

/-- Substring test on strings (Python `needle in hay`). -/
def substr (needle hay : String) : Bool := hasSub needle.data hay.data

/-- String begins-with test, used to classify emitted validator messages. -/
def strBegins (p s : String) : Bool := p.data.isPrefixOf s.data

/-- Python string slicing `s[:n]` (by characters). -/
def strTake (s : String) (n : Nat) : String := String.mk (s.data.take n)

/-! ## Numeric formatting (Python `f"{v:.df}"`, `str(float)`, digit groupings) -/

/-- Floor of a rational as an integer (`Rat` keeps `den > 0`). -/
def ratFloor (q : ℚ) : Int := Int.fdiv q.num (q.den : Int)

/-- Python `round` / float-formatting rounding: nearest, ties to even. -/
def pyRoundHalfEven (q : ℚ) : Int :=
  let f : Int := ratFloor q
  let r : ℚ := q - (f : ℚ)
  if r < 1/2 then f
  else if 1/2 < r then f + 1
  else if f % 2 = 0 then f else f + 1

/-- Left-pad a string with zeros to a minimum length. -/
def padZeros (s : String) (n : Nat) : String :=
  if s.length < n then String.mk (List.replicate (n - s.length) '0') ++ s else s

/-- Python `f"{q:.df}"` with `d > 0` decimal places (model on exact rationals). -/
def formatFixed (q : ℚ) (d : Nat) : String :=
  let sign := if q < 0 then "-" else ""
  let m : Int := pyRoundHalfEven (|q| * ((10 : ℚ) ^ d))
  let s := padZeros (toString m.toNat) (d + 1)
  let ip := String.mk (s.data.take (s.length - d))
  let fp := String.mk (s.data.drop (s.length - d))
  sign ++ ip ++ "." ++ fp

/-- Python `s.rstrip(c)` for a single strip character. -/
def rstripChar (s : String) (c : Char) : String :=
  String.mk (s.data.reverse.dropWhile (· = c)).reverse

/-- The `.rstrip("0").rstrip(".")` post-processing of fixed-point renderings. -/
def stripZeroDot (s : String) : String := rstripChar (rstripChar s '0') '.'

/-- Render an integer with `k` decimal digits after the point. -/
def decimalString (m : Int) (k : Nat) : String :=
  let sign := if m < 0 then "-" else ""
  let s := padZeros (toString m.natAbs) (k + 1)
  sign ++ String.mk (s.data.take (s.length - k)) ++ "." ++ String.mk (s.data.drop (s.length - k))

/-- Python `str(v)` for a float `v`, modelled for decimally representable
rationals: the minimal decimal expansion, with at least one fractional digit. -/
def floatRepr (q : ℚ) : String :=
  match (List.range 18).find? (fun k => (q * (10 : ℚ) ^ k).den = 1) with
  | some 0 => toString q.num ++ ".0"
  | some k => decimalString (pyRoundHalfEven (q * (10 : ℚ) ^ k)) k
  | none => toString q.num ++ "/" ++ toString q.den

/-- Insert a comma after every third digit from the right (reversed input). -/
def commasRev (k : Nat) : List Char → List Char
  | [] => []
  | c :: rest =>
    if k % 3 = 0 && k ≠ 0 then ',' :: c :: commasRev (k + 1) rest
    else c :: commasRev (k + 1) rest

/-- `comma_international` from `test.py`: Python `f"{n:,}"`. -/
def comma_international (n : Int) : String :=
  (if n < 0 then "-" else "") ++ String.mk (commasRev 0 (toString n.natAbs).data.reverse).reverse

/-- The `while` loop of `comma_indian`: peel two-digit groups off the right
of the leading part.  The fuel argument (initially the list length) only
bounds the iteration count and is never exhausted. -/
def indianChunk : Nat → List Char → List (List Char)
  | 0, r => if r.isEmpty then [] else [r]
  | fuel + 1, r =>
    if 2 < r.length then (r.drop (r.length - 2)) :: indianChunk fuel (r.take (r.length - 2))
    else if r.isEmpty then [] else [r]

/-- `comma_indian` from `test.py`: South-Asian 2-digit-after-first-3 grouping. -/
def comma_indian (n : Int) : String :=
  let s := toString n
  if s.length ≤ 3 then s
  else
    let last3 := String.mk (s.data.drop (s.length - 3))
    let rest := s.data.take (s.length - 3)
    let parts := indianChunk rest.length rest
    String.intercalate "," ((parts.reverse).map String.mk) ++ "," ++ last3

/-- Decimal digit list to natural number. -/
def digitsToNat (cs : List Char) : Nat :=
  cs.foldl (fun n c => n * 10 + (c.toNat - '0'.toNat)) 0

/-- Python `float(s)` on a matched `\d+.\d+` token (exact rational value). -/
def parseDec (cs : List Char) : ℚ :=
  let ip := cs.takeWhile (· ≠ '.')
  let fp := (cs.dropWhile (· ≠ '.')).drop 1
  (digitsToNat ip : ℚ) + (digitsToNat fp : ℚ) / (10 : ℚ) ^ fp.length

/-! ## Data model -/

/-- The fixed metric-key set of `METRICS` in `test.py`. -/
inductive Metric
  | revenue | ebitda | pat | eps | networth | total_assets
deriving DecidableEq

/-- The `source` sub-dictionary of one metric: page, section, snippet. -/
structure SourceRef where
  page : Int
  sectionLabel : String
  snippet : String
deriving DecidableEq

/-- One metric entry of a year dictionary: a value with its citation. -/
structure MetricValue where
  value : ℚ
  source : SourceRef
deriving DecidableEq

/-- One reporting year's extracted record (`year_obj` in `test.py`).
`pat_attrib_owners`, `eps_basis`, `eps_scope` model the optional keys
`_pat_attrib_owners`, `_eps_basis`, `_eps_scope`. -/
structure YearRecord where
  year_label : String
  revenue : MetricValue
  ebitda : MetricValue
  pat : MetricValue
  eps : MetricValue
  networth : MetricValue
  total_assets : MetricValue
  pat_attrib_owners : Option MetricValue := none
  eps_basis : Option String := none
  eps_scope : Option String := none
deriving DecidableEq

/-- Metric lookup `year_obj[m]`. -/
def mget (y : YearRecord) : Metric → MetricValue
  | .revenue => y.revenue
  | .ebitda => y.ebitda
  | .pat => y.pat
  | .eps => y.eps
  | .networth => y.networth
  | .total_assets => y.total_assets

/-- Metric update `year_obj[m] = v`. -/
def mset (y : YearRecord) : Metric → MetricValue → YearRecord
  | .revenue, v => { y with revenue := v }
  | .ebitda, v => { y with ebitda := v }
  | .pat, v => { y with pat := v }
  | .eps, v => { y with eps := v }
  | .networth, v => { y with networth := v }
  | .total_assets, v => { y with total_assets := v }

/-- The Python string key of each metric (used in repair outcome tuples). -/
def metricName : Metric → String
  | .revenue => "revenue"
  | .ebitda => "ebitda"
  | .pat => "pat"
  | .eps => "eps"
  | .networth => "networth"
  | .total_assets => "total_assets"

/-- `METRICS` from `test.py`. -/
def METRICS : List Metric := [.revenue, .ebitda, .pat, .eps, .networth, .total_assets]

/-- `KEYWORDS` from `test.py`. -/
def KEYWORDS : Metric → List String
  | .revenue => ["Value of Sales", "Sales & Services", "Revenue", "Total income", "Income", "Total Revenue"]
  | .ebitda => ["EBITDA", "EBDIT", "Earnings Before Depreciation", "Operating EBITDA", "Operating Income", "Operating income", "Income from operations"]
  | .pat => ["PROFIT AFTER TAX", "Profit after tax", "PAT", "Profit for the year", "Net Profit", "Net profit", "Net Income", "Net income"]
  | .eps => ["Earnings Per Equity Share", "Basic (in", "EPS", "Earnings per share", "Diluted"]
  | .networth => ["Total Equity", "Total equity", "Total Equity attributable", "Equity", "Net worth", "Shareholders' funds", "Stockholders' Equity"]
  | .total_assets => ["Total Assets", "Assets"]

/-- `ANCHORS` from `test.py` (metrics absent from the dict get `[]`). -/
def ANCHORS : Metric → List String
  | .eps => ["earnings per equity share", "basic", "diluted"]
  | .pat => ["owners", "attributable"]
  | .networth => ["total equity"]
  | _ => []

/-- Python `metric in ANCHORS` (dict-key membership). -/
def hasAnchors : Metric → Bool
  | .eps => true
  | .pat => true
  | .networth => true
  | _ => false

/-- `CRORE_TO_INR` from `test.py`. -/
def CRORE_TO_INR : ℚ := 10000000

/-! ## Unit normalization -/

/-- `looks_like_inr_not_crore` from `test.py`. -/
def looks_like_inr_not_crore (v : ℚ) : Bool := 1000000000 ≤ v

/-- The loop body of `normalize_units_in_place` for one non-EPS metric:
`if v and looks_like_inr_not_crore(v): value = v / CRORE_TO_INR`. -/
def fixScale (mv : MetricValue) : MetricValue :=
  if mv.value ≠ 0 && looks_like_inr_not_crore mv.value then
    { mv with value := mv.value / CRORE_TO_INR }
  else mv

/-- The metric keys iterated by `normalize_units_in_place` (all but EPS). -/
def scaleSensitiveMetrics : List Metric := [.revenue, .ebitda, .pat, .networth, .total_assets]

/-- `normalize_units_in_place` from `test.py`: rescale each non-EPS metric
whose value is truthy and `≥ 1e9`, then rescale EPS when above `10_000`. -/
def normalize_units_in_place (y : YearRecord) : YearRecord :=
  let y := { y with revenue := fixScale y.revenue, ebitda := fixScale y.ebitda,
                    pat := fixScale y.pat, networth := fixScale y.networth,
                    total_assets := fixScale y.total_assets }
  if 10000 < y.eps.value then { y with eps := { y.eps with value := y.eps.value / CRORE_TO_INR } }
  else y

/-! ## Snippet predicates and page gating -/

/-- `eps_snippet_is_diluted` from `test.py`. -/
def eps_snippet_is_diluted (sn : String) : Bool :=
  let s := pyLower (norm_spaces sn)
  substr "diluted" s && !substr "basic" s

/-- `eps_snippet_has_basic` from `test.py`. -/
def eps_snippet_has_basic (sn : String) : Bool :=
  substr "basic" (pyLower (norm_spaces sn))

/-- `snippet_has_total_equity` from `test.py`. -/
def snippet_has_total_equity (sn : String) : Bool :=
  let s := pyLower (norm_spaces sn)
  substr "total equity" s || substr "total equity attributable" s

/-- `snippet_looks_like_components` from `test.py`. -/
def snippet_looks_like_components (sn : String) : Bool :=
  let s := pyLower (norm_spaces sn)
  substr "equity share capital" s || substr "other equity" s

/-- `page_passes_constraints` from `test.py`: keyword gate, anchor gate, and
the PAT owners/attributable special case. -/
def page_passes_constraints (metric : Metric) (page_text : String) (snippet : String := "") : Bool :=
  let t := pyLower (norm_spaces page_text)
  let sn := pyLower (norm_spaces snippet)
  let kws := (KEYWORDS metric).map pyLower
  if !kws.isEmpty && !kws.any (fun k => substr k t) then false
  else if hasAnchors metric && !(ANCHORS metric).any (fun a => substr a t) then false
  else if metric = Metric.pat && (substr "owners" sn || substr "attributable" sn)
          && (!substr "owners" t && !substr "attributable" t) then false
  else true

/-! ## Page repair -/

/-- Scan pages in order (1-based result), returning the first page whose
text satisfies the predicate — the `for pno in range(len(doc))` loops. -/
def searchPages (p : String → Bool) : List String → Nat → Option Nat
  | [], _ => none
  | t :: rest, i => if p t then some (i + 1) else searchPages p rest (i + 1)

/-- `find_best_page_by_snippet` from `test.py`. -/
def find_best_page_by_snippet (doc : List String) (metric : Metric) (snippet0 : String) :
    Option Nat :=
  let snippet := norm_spaces snippet0
  if snippet = "" || snippet.length < 10 then none
  else
    let anchors := [snippet]
      ++ (if 160 < snippet.length then [strTake snippet 160] else [])
      ++ (if 120 < snippet.length then [strTake snippet 120] else [])
      ++ (if 80 < snippet.length then [strTake snippet 80] else [])
    searchPages
      (fun page_text =>
        page_passes_constraints metric page_text snippet
        && anchors.any (fun a => substr a (norm_spaces page_text)))
      doc 0

/-- The candidate rendering set built inside `find_best_page_by_number`
(the Python `set` is modelled as a list; only membership matters). -/
def number_candidates (val : ℚ) : List String :=
  let iv := pyRoundHalfEven val
  [toString iv,
   stripZeroDot (formatFixed val 2),
   stripZeroDot (formatFixed val 1),
   comma_international iv,
   comma_indian iv]

/-- `find_best_page_by_number` from `test.py`. -/
def find_best_page_by_number (doc : List String) (metric : Metric) (val : ℚ) : Option Nat :=
  if val = 0 then none
  else
    searchPages
      (fun page_text =>
        page_passes_constraints metric page_text ""
        && (number_candidates val).any (fun c => substr c page_text))
      doc 0

/-- The body of the `for m in METRICS` loop of `repair_sources`. -/
def repair_step (doc : List String) (acc : YearRecord × List (String × String)) (m : Metric) :
    YearRecord × List (String × String) :=
  let y := acc.1
  let src := (mget y m).source
  let p := src.page
  if p ≤ 0 || (doc.length : Int) < p then
    let newp :=
      match find_best_page_by_snippet doc m src.snippet with
      | some q => some q
      | none => find_best_page_by_number doc m (mget y m).value
    match newp with
    | some q =>
      (mset y m { mget y m with source := { src with page := (q : Int) } },
       acc.2 ++ [(metricName m, "page " ++ toString p ++ " -> " ++ toString q)])
    | none => (y, acc.2 ++ [(metricName m, "page " ++ toString p ++ " unresolved")])
  else acc

/-- `repair_sources` from `test.py`: in-place page repair over all metrics,
returning the repaired record and the repairs log. -/
def repair_sources (doc : List String) (y : YearRecord) : YearRecord × List (String × String) :=
  METRICS.foldl (repair_step doc) (y, [])

/-- `repair_single_source_page` from `test.py`, acting on the `source`
sub-object of a stand-alone re-extracted value. -/
def repair_single_source_page (doc : List String) (metric : Metric) (src : SourceRef)
    (fallback_val : ℚ) : SourceRef :=
  if src.page ≤ 0 || (doc.length : Int) < src.page then
    match find_best_page_by_snippet doc metric src.snippet with
    | some q => { src with page := (q : Int) }
    | none =>
      match find_best_page_by_number doc metric fallback_val with
      | some q => { src with page := (q : Int) }
      | none => src
  else src

/-! ## EPS / Networth fix-ups -/

/-- The EPS-only oracle reply schema (`EPS_ONLY_PROMPT` result). -/
structure EpsReply where
  value : ℚ
  basis : String
  scope : String
  source : SourceRef
deriving DecidableEq

/-- `needs_eps_fix` from `test.py`. -/
def needs_eps_fix (y : YearRecord) : Bool :=
  let v := y.eps.value
  let sn := y.eps.source.snippet
  let s := pyLower (norm_spaces sn)
  if v ≤ 0 then true
  else if !substr "basic" s && !substr "diluted" s then true
  else if eps_snippet_is_diluted sn then true
  else false

/-- `apply_eps_only` from `test.py`, with the oracle reply passed in:
rescale, repair the reply's citation, then gate on basis/scope wording
before installing the replacement EPS. -/
def apply_eps_only (doc : List String) (eps_only : EpsReply) (y : YearRecord) : YearRecord :=
  let eps_v := eps_only.value
  let eps_only :=
    if 10000 < eps_v then { eps_only with value := eps_only.value / CRORE_TO_INR } else eps_only
  let eps_only :=
    { eps_only with
      source := repair_single_source_page doc Metric.eps eps_only.source eps_only.value }
  let basis := pyStrip (pyLower (if eps_only.basis = "" then "basic" else eps_only.basis))
  let scope := pyStrip (pyLower (if eps_only.scope = "" then "total" else eps_only.scope))
  let s := pyLower (norm_spaces eps_only.source.snippet)
  if eps_v ≤ 0 then y
  else if !substr "basic" s && !substr "diluted" s then y
  else if scope = "total" && !substr "continuing and discontinued" s then y
  else if scope = "continuing" && !substr "continuing" s then y
  else
    { y with
      eps := { value := eps_only.value, source := eps_only.source },
      eps_basis := some (if basis = "diluted" then "diluted" else "basic"),
      eps_scope := some scope }

/-! ## Year-over-year checks -/

/-- `yoy_growth` from `test.py`. -/
def yoy_growth (p c : ℚ) : Option ℚ := if p = 0 then none else some ((c - p) / p)

/-- The growth-warning message emitted in `run_yoy_checks`. -/
def yoyWarnMsg (name ay b_y : String) (g : ℚ) : String :=
  "WARN [YoY] " ++ name ++ " " ++ ay ++ "->" ++ b_y ++ " looks large: "
    ++ formatFixed (g * 100) 1 ++ "%"

/-- The margin-warning message emitted in `run_yoy_checks`. -/
def marginWarnMsg (name b_y : String) (m : ℚ) : String :=
  "WARN [Margin] " ++ name ++ " margin " ++ b_y ++ " odd: " ++ formatFixed (m * 100) 1 ++ "%"

/-- One iteration of the adjacent-pair loop of `run_yoy_checks`. -/
def yoyPairMsgs (a b : YearRecord) : List String :=
  let ay := a.year_label
  let b_y := b.year_label
  let gw := fun (name : String) (x0 x1 limit : ℚ) =>
    match yoy_growth x0 x1 with
    | none => []
    | some g => if limit < |g| then [yoyWarnMsg name ay b_y g] else []
  gw "Revenue" a.revenue.value b.revenue.value (35/100)
    ++ gw "EBITDA" a.ebitda.value b.ebitda.value (50/100)
    ++ gw "PAT" a.pat.value b.pat.value (60/100)
    ++ (if b.revenue.value ≠ 0 then
          let e_m := b.ebitda.value / b.revenue.value
          let p_m := b.pat.value / b.revenue.value
          (if !(5/100 ≤ e_m ∧ e_m ≤ 35/100 : Bool) then [marginWarnMsg "EBITDA" b_y e_m] else [])
            ++ (if !(2/100 ≤ p_m ∧ p_m ≤ 20/100 : Bool) then [marginWarnMsg "PAT" b_y p_m] else [])
        else [])

/-- The `for i in range(1, len(years_sorted))` recursion of `run_yoy_checks`. -/
def yoyLoop : YearRecord → List YearRecord → List String
  | _, [] => []
  | a, b :: rest => yoyPairMsgs a b ++ yoyLoop b rest

/-- `run_yoy_checks` from `test.py`. -/
def run_yoy_checks : List YearRecord → List String
  | [] => []
  | a :: rest => yoyLoop a rest

/-! ## PAT vs EPS implied-share checks -/

/-- `implied_shares` from `test.py`. -/
def implied_shares (pat_crore eps : ℚ) : ℚ :=
  if pat_crore ≤ 0 ∨ eps ≤ 0 then 0 else pat_crore * CRORE_TO_INR / eps

/-- The `_pat_attrib_owners` value with the dict-miss default of `0`. -/
def patAttribVal (y : YearRecord) : ℚ :=
  match y.pat_attrib_owners with
  | some mv => mv.value
  | none => 0

/-- One `rows` entry of `run_pat_eps_checks`: label with implied share count
(zero when PAT-attributable or EPS is missing/non-positive). -/
def patEpsRow (y : YearRecord) : String × ℚ :=
  let eps := y.eps.value
  let pat_for_eps := patAttribVal y
  if pat_for_eps ≤ 0 ∨ eps ≤ 0 then (y.year_label, 0)
  else (y.year_label, implied_shares pat_for_eps eps)

/-- Python string `<` (lexicographic by code point). -/
def strLtL : List Char → List Char → Bool
  | [], [] => false
  | [], _ :: _ => true
  | _ :: _, [] => false
  | a :: as_, b :: bs =>
    if a.val < b.val then true else if b.val < a.val then false else strLtL as_ bs

/-- Python string `<=`. -/
def pyStrLe (a b : String) : Bool := !strLtL b.data a.data

/-- Stable insertion into a label-sorted row list. -/
def insRow (x : String × ℚ) : List (String × ℚ) → List (String × ℚ)
  | [] => [x]
  | y :: ys => if pyStrLe x.1 y.1 then x :: y :: ys else y :: insRow x ys

/-- `rows.sort(key=lambda r: r[0])` — Python's stable sort by label. -/
def sortRows (l : List (String × ℚ)) : List (String × ℚ) := l.foldr insRow []

/-- The missing/zero message of `run_pat_eps_checks`. -/
def patEpsMissingMsg (y0 y1 : String) : String :=
  "WARN [PAT/EPS] Missing/zero PAT attributable to owners OR EPS for " ++ y0 ++ " or " ++ y1
    ++ "; cannot validate implied shares. (No fallback to Profit-for-year.)"

/-- The informational split message of `run_pat_eps_checks`. -/
def patEpsInfoMsg (y0 y1 : String) (ratio expected s0 s1 : ℚ) : String :=
  "INFO [PAT/EPS] Implied shares " ++ y0 ++ "->" ++ y1 ++ " ≈ " ++ formatFixed ratio 2
    ++ "x (expected ~" ++ floatRepr expected ++ "x). (~" ++ formatFixed (s0 / 1000000000) 3
    ++ "B -> " ++ formatFixed (s1 / 1000000000) 3 ++ "B shares)"

/-- The large-change warning of `run_pat_eps_checks`. -/
def patEpsWarnMsg (y0 y1 : String) (change ratio : ℚ) : String :=
  "WARN [PAT/EPS] Implied shares changed " ++ y0 ++ "->" ++ y1 ++ " by "
    ++ formatFixed (change * 100) 1 ++ "% (ratio " ++ formatFixed ratio 2
    ++ "x). Check EPS type/units/PAT basis."

/-- The OK message of `run_pat_eps_checks`. -/
def patEpsOkMsg (y0 y1 : String) (change : ℚ) : String :=
  "OK   [PAT/EPS] Implied shares " ++ y0 ++ "->" ++ y1 ++ " changed "
    ++ formatFixed (change * 100) 1 ++ "%."

/-- One iteration of the adjacent-pair loop of `run_pat_eps_checks`. -/
def patEpsPairMsg (mults : List ℚ) (tol : ℚ) (r0 r1 : String × ℚ) : String :=
  let y0 := r0.1; let s0 := r0.2
  let y1 := r1.1; let s1 := r1.2
  if s0 ≤ 0 ∨ s1 ≤ 0 then patEpsMissingMsg y0 y1
  else
    let ratio := s1 / s0
    match mults.find? (fun m => m * (1 - tol) ≤ ratio ∧ ratio ≤ m * (1 + tol) : ℚ → Bool) with
    | some expected => patEpsInfoMsg y0 y1 ratio expected s0 s1
    | none =>
      let change := |s1 - s0| / s0
      if 12/100 < change then patEpsWarnMsg y0 y1 change ratio
      else patEpsOkMsg y0 y1 change

/-- The adjacent-pair recursion of `run_pat_eps_checks`. -/
def patEpsLoop (mults : List ℚ) (tol : ℚ) : String × ℚ → List (String × ℚ) → List String
  | _, [] => []
  | r0, r1 :: rest => patEpsPairMsg mults tol r0 r1 :: patEpsLoop mults tol r1 rest

/-- `run_pat_eps_checks` from `test.py` (the caller passes
`expected_multipliers=(2.0,)`, `tol=0.25`). -/
def run_pat_eps_checks (ys : List YearRecord) (mults : List ℚ) (tol : ℚ) : List String :=
  let rows := sortRows (ys.map patEpsRow)
  match rows with
  | [] => []
  | r :: rest => patEpsLoop mults tol r rest

/-! ## EPS-basis continuity checks -/

/-- Python `\w` word character on the ASCII range. -/
def isWordChar (c : Char) : Bool := c.isAlpha || c.isDigit || c = '_'

/-- Scanner for `re.findall(r"\b\d+\.\d+\b", s)`: advance one character at a
time; on a word boundary followed by `digits '.' digits` with a trailing
boundary, record the match and resume after it.  The fuel (initially the
string length) only bounds iteration and is never exhausted, since every
recursive call consumes at least one character. -/
def scanDec : Nat → Bool → List Char → List (List Char)
  | 0, _, _ => []
  | _ + 1, _, [] => []
  | fuel + 1, prevWord, c :: rest =>
    if !prevWord && c.isDigit then
      let d1 := (c :: rest).takeWhile Char.isDigit
      let r1 := (c :: rest).dropWhile Char.isDigit
      match r1 with
      | '.' :: r2 =>
        let d2 := r2.takeWhile Char.isDigit
        let r3 := r2.dropWhile Char.isDigit
        if !d2.isEmpty && (match r3 with | [] => true | c3 :: _ => !isWordChar c3) then
          (d1 ++ '.' :: d2) :: scanDec fuel true r3
        else scanDec fuel (isWordChar c) rest
      | _ => scanDec fuel (isWordChar c) rest
    else scanDec fuel (isWordChar c) rest

/-- `re.findall(r"\b\d+\.\d+\b", s)` over a string. -/
def findallDec (s : String) : List (List Char) := scanDec s.length false s.data

/-- `eps_snippet_prior_value` from `test.py`: the second decimal number in
the normalized snippet, if at least two are present. -/
def eps_snippet_prior_value (eps_snip : String) : Option ℚ :=
  match findallDec (norm_spaces eps_snip) with
  | _ :: n2 :: _ => some (parseDec n2)
  | _ => none

/-- `is_share_base_change_year` from `test.py` (default tolerances 1.7/2.3). -/
def is_share_base_change_year (prev_y curr_y : YearRecord) : Bool :=
  let prev_eps := prev_y.eps.value
  let curr_eps := curr_y.eps.value
  let prev_pat := patAttribVal prev_y
  let curr_pat := patAttribVal curr_y
  if prev_eps ≤ 0 ∨ curr_eps ≤ 0 ∨ prev_pat ≤ 0 ∨ curr_pat ≤ 0 then false
  else
    let s0 := implied_shares prev_pat prev_eps
    let s1 := implied_shares curr_pat curr_eps
    if s0 ≤ 0 then false
    else decide (17/10 ≤ s1 / s0 ∧ s1 / s0 ≤ 23/10)

/-- Dictionary `by_year[label]` after `{y["year_label"]: y for y in ys}`:
the last record carrying the label. -/
def byYearLookup : List YearRecord → String → Option YearRecord
  | [], _ => none
  | y :: rest, lab =>
    match byYearLookup rest lab with
    | some r => some r
    | none => if y.year_label = lab then some y else none

/-- The basis-mismatch warning of `run_eps_basis_checks`. -/
def epsBasisWarnMsg (currLab prevLab : String) (prior prev_eps : ℚ) : String :=
  "WARN [EPS BASIS] " ++ currLab ++ " EPS snippet shows prior-year EPS ~" ++ floatRepr prior
    ++ ", but extracted " ++ prevLab ++ " EPS is " ++ floatRepr prev_eps
    ++ ". Likely different EPS row/basis."

/-- One iteration of the adjacent-label loop of `run_eps_basis_checks`. -/
def epsBasisPairMsgs (all : List YearRecord) (labPrev labCurr : String) : List String :=
  match byYearLookup all labPrev, byYearLookup all labCurr with
  | some prev, some curr =>
    if is_share_base_change_year prev curr then []
    else
      match eps_snippet_prior_value curr.eps.source.snippet with
      | none => []
      | some prior_in_curr =>
        let prev_eps := prev.eps.value
        if 0 < prev_eps ∧ 1/10 < |prior_in_curr - prev_eps| / prev_eps then
          [epsBasisWarnMsg curr.year_label prev.year_label prior_in_curr prev_eps]
        else []
  | _, _ => []

/-- The adjacent-label recursion of `run_eps_basis_checks`. -/
def epsBasisLoop (all : List YearRecord) : String → List String → List String
  | _, [] => []
  | l0, l1 :: rest => epsBasisPairMsgs all l0 l1 ++ epsBasisLoop all l1 rest

/-- `run_eps_basis_checks` from `test.py`. -/
def run_eps_basis_checks (ys : List YearRecord) : List String :=
  match ys.map (·.year_label) with
  | [] => []
  | l :: rest => epsBasisLoop ys l rest

/-! ## Concrete fixtures used by witnesses and counterexamples -/

/-- A citation with empty section. -/
def mkSrc (p : Int) (sn : String) : SourceRef := ⟨p, "", sn⟩

/-- A metric value with page and snippet. -/
def mkMV (v : ℚ) (p : Int) (sn : String) : MetricValue := ⟨v, mkSrc p sn⟩

/-- Year record with the six metric slots. -/
def mkYear (lab : String) (rev eb pa ep nw ta : MetricValue) : YearRecord :=
  { year_label := lab, revenue := rev, ebitda := eb, pat := pa, eps := ep,
    networth := nw, total_assets := ta }

/-- Record with an over-scaled revenue (2e9) for the C1 rescale witness. -/
def yC1 : YearRecord :=
  mkYear "2024" (mkMV 2000000000 1 "Revenue") (mkMV 20 1 "") (mkMV 10 1 "")
    (mkMV 5 1 "Basic") (mkMV 50 1 "") (mkMV 90 1 "")

/-- Already-normalized record for the C1 idempotence witness. -/
def yC1idem : YearRecord :=
  mkYear "2024" (mkMV 200 1 "Revenue") (mkMV 20 1 "") (mkMV 10 1 "")
    (mkMV 5 1 "Basic") (mkMV 50 1 "") (mkMV 90 1 "")

/-- One-page document for the C2/C10 EPS-only scenarios. -/
def docC2 : List String := ["some page"]

/-- Base record whose EPS is about to be replaced. -/
def yC2 : YearRecord :=
  mkYear "2024" (mkMV 100 1 "Revenue") (mkMV 20 1 "") (mkMV 10 1 "")
    (mkMV 1 1 "old eps snippet") (mkMV 50 1 "") (mkMV 90 1 "")

/-- The accepted §8 reply: basic, total scope, conforming snippet. -/
def replyAccept : EpsReply :=
  ⟨52/10, "basic", "total", mkSrc 1 "Basic EPS: 5.20, Continuing and Discontinued operations"⟩

/-- A rejected reply: scope total but snippet lacks the required phrase. -/
def replyReject : EpsReply := ⟨52/10, "basic", "total", mkSrc 1 "Basic EPS: 5.20"⟩

/-- Single-page document for the C4 counterexample. -/
def docC4 : List String := ["xyz"]

/-- Record whose revenue cites an out-of-range page 2 with no snippet and a
zero value, so both repair searches fail. -/
def yC4 : YearRecord :=
  mkYear "2024" (mkMV 0 2 "") (mkMV 20 1 "") (mkMV 10 1 "")
    (mkMV 5 1 "Basic") (mkMV 50 1 "") (mkMV 90 1 "")

/-- Seven-page document where the rendering "1,234,567" occurs only on page
7, and page 7 carries no revenue keyword. -/
def docC5 : List String := ["", "", "", "", "", "", "1,234,567"]

/-- Seven-page document where page 7 carries the rendering and a revenue
keyword. -/
def docC5w : List String := ["", "", "", "", "", "", "Revenue 1,234,567"]

/-- Record whose revenue cites page 0 with value 1234567 and no snippet. -/
def yC5 : YearRecord :=
  mkYear "2024" (mkMV 1234567 0 "") (mkMV 20 1 "") (mkMV 10 1 "")
    (mkMV 5 1 "Basic") (mkMV 50 1 "") (mkMV 90 1 "")

/-- 2019 record: implied share count 1000 × 1e7 ÷ 10 = 1e9. -/
def yA6 : YearRecord :=
  { mkYear "2019" (mkMV 100 1 "") (mkMV 20 1 "") (mkMV 10 1 "")
      (mkMV 10 1 "Basic") (mkMV 50 1 "") (mkMV 90 1 "") with
    pat_attrib_owners := some (mkMV 1000 1 "attributable to owners") }

/-- 2020 record: implied share count 2050 × 1e7 ÷ 10 = 2.05e9. -/
def yB6 : YearRecord :=
  { mkYear "2020" (mkMV 110 1 "") (mkMV 22 1 "") (mkMV 11 1 "")
      (mkMV 10 1 "Basic") (mkMV 55 1 "") (mkMV 95 1 "") with
    pat_attrib_owners := some (mkMV 2050 1 "attributable to owners") }

/-- 2019 record for the YoY witness: revenue 100, EBITDA 20, PAT 10. -/
def yA7 : YearRecord :=
  mkYear "2019" (mkMV 100 1 "") (mkMV 20 1 "") (mkMV 10 1 "")
    (mkMV 5 1 "Basic") (mkMV 50 1 "") (mkMV 90 1 "")

/-- 2020 record for the YoY witness: revenue 145, EBITDA 25, PAT 12. -/
def yB7 : YearRecord :=
  mkYear "2020" (mkMV 145 1 "") (mkMV 25 1 "") (mkMV 12 1 "")
    (mkMV 5 1 "Basic") (mkMV 55 1 "") (mkMV 95 1 "")

/-- Record with a positive EPS but a diluted-only snippet. -/
def yC8 : YearRecord :=
  mkYear "2024" (mkMV 100 1 "") (mkMV 20 1 "") (mkMV 10 1 "")
    (mkMV (52/10) 1 "Diluted EPS: 5.20") (mkMV 50 1 "") (mkMV 90 1 "")

/-- 2019 record for the EPS-basis witness: extracted EPS 5. -/
def yA9 : YearRecord :=
  mkYear "2019" (mkMV 100 1 "") (mkMV 20 1 "") (mkMV 10 1 "")
    (mkMV 5 1 "Basic EPS: 5.00") (mkMV 50 1 "") (mkMV 90 1 "")

/-- 2020 record for the EPS-basis witness: snippet echoes prior EPS 4.00. -/
def yB9 : YearRecord :=
  mkYear "2020" (mkMV 110 1 "") (mkMV 22 1 "") (mkMV 11 1 "")
    (mkMV (52/10) 1 "Basic EPS: 5.20 (previous year 4.00)") (mkMV 55 1 "") (mkMV 95 1 "")

/-- Diluted-only, continuing-scope reply accepted by the gate. -/
def replyC10 : EpsReply :=
  ⟨15/2, "diluted", "continuing", mkSrc 1 "Diluted EPS from Continuing Operations: 7.50"⟩

/-- The effective scope computed in `apply_eps_only`:
`(eps_only.get("scope", "") or "total").lower().strip()`. -/
def epsScopeEff (r : EpsReply) : String :=
  pyStrip (pyLower (if r.scope = "" then "total" else r.scope))

/-- The effective basis computed in `apply_eps_only`:
`(eps_only.get("basis", "") or "basic").lower().strip()`. -/
def epsBasisEff (r : EpsReply) : String :=
  pyStrip (pyLower (if r.basis = "" then "basic" else r.basis))

/-- The reply value after the `> 10_000` rescale step of `apply_eps_only`. -/
def epsRescaledValue (r : EpsReply) : ℚ :=
  if 10000 < r.value then r.value / CRORE_TO_INR else r.value

/-! ## Helper lemmas -/

theorem repair_single_keeps_snippet (doc : List String) (m : Metric) (src : SourceRef) (v : ℚ) :
    (repair_single_source_page doc m src v).snippet = src.snippet := by
  unfold repair_single_source_page
  split
  · split
    · rfl
    · split <;> rfl
  · rfl

theorem repair_single_keeps_value_free (doc : List String) (m : Metric) (src : SourceRef)
    (v : ℚ) : (repair_single_source_page doc m src v).sectionLabel = src.sectionLabel := by
  unfold repair_single_source_page
  split
  · split
    · rfl
    · split <;> rfl
  · rfl

/-- `apply_eps_only` in gate normal form: the rescale and citation-repair
steps never change the snippet, basis or scope the gate inspects. -/
theorem apply_eps_only_eq (doc : List String) (reply : EpsReply) (y : YearRecord) :
    apply_eps_only doc reply y =
      (let s := pyLower (norm_spaces reply.source.snippet)
       let scope := epsScopeEff reply
       if reply.value ≤ 0 then y
       else if !substr "basic" s && !substr "diluted" s then y
       else if scope = "total" && !substr "continuing and discontinued" s then y
       else if scope = "continuing" && !substr "continuing" s then y
       else
         { y with
           eps := { value := epsRescaledValue reply,
                    source := repair_single_source_page doc Metric.eps reply.source
                                (epsRescaledValue reply) },
           eps_basis := some (if epsBasisEff reply = "diluted" then "diluted" else "basic"),
           eps_scope := some scope }) := by
  by_cases h : 10000 < reply.value
  · simp only [apply_eps_only, epsScopeEff, epsBasisEff, epsRescaledValue, if_pos h,
      repair_single_keeps_snippet]
  · simp only [apply_eps_only, epsScopeEff, epsBasisEff, epsRescaledValue, if_neg h,
      repair_single_keeps_snippet]

theorem fixScale_big (mv : MetricValue) (h : (1000000000 : ℚ) ≤ mv.value) :
    fixScale mv = { mv with value := mv.value / CRORE_TO_INR } := by
  have hne : mv.value ≠ 0 := by intro h0; rw [h0] at h; norm_num at h
  simp [fixScale, looks_like_inr_not_crore, hne, h]

theorem fixScale_small (mv : MetricValue) (h : mv.value < 1000000000) : fixScale mv = mv := by
  simp [fixScale, looks_like_inr_not_crore, not_le.2 h]

/-! ## C1 -/

/-- C1: unit normalization divides every scale-sensitive metric value `≥ 1e9`
by 10,000,000, and re-applying `normalize_units_in_place` to a record whose
scale-sensitive values are all `< 1e9` with EPS `≤ 10,000` is the identity. -/
theorem C1_unit_normalization :
    (∀ (y : YearRecord) (m : Metric), m ∈ scaleSensitiveMetrics →
        (1000000000 : ℚ) ≤ (mget y m).value →
        (mget (normalize_units_in_place y) m).value = (mget y m).value / 10000000)
    ∧ (∀ y : YearRecord, (∀ m ∈ scaleSensitiveMetrics, (mget y m).value < 1000000000) →
        y.eps.value ≤ 10000 → normalize_units_in_place y = y) := by
  constructor
  · intro y m hm hv
    cases m <;> simp only [mget] at hv ⊢ <;>
      first
      | (simp only [normalize_units_in_place]
         rw [fixScale_big _ hv]
         split <;> simp [CRORE_TO_INR])
      | (exfalso; revert hm; decide)
  · intro y hall heps
    have h1 := fixScale_small y.revenue (hall .revenue (by decide))
    have h2 := fixScale_small y.ebitda (hall .ebitda (by decide))
    have h3 := fixScale_small y.pat (hall .pat (by decide))
    have h4 := fixScale_small y.networth (hall .networth (by decide))
    have h5 := fixScale_small y.total_assets (hall .total_assets (by decide))
    simp only [mget] at h1 h2 h3 h4 h5
    simp only [normalize_units_in_place, h1, h2, h3, h4, h5]
    rw [if_neg (by exact not_lt.2 heps)]

/-- Witness for C1: a record with revenue 2e9 is rescaled to 200 crore, and
an already-normalized record passes through unchanged. -/
theorem C1_unit_normalization_witness :
    (mget (normalize_units_in_place yC1) Metric.revenue).value
        = (mget yC1 Metric.revenue).value / 10000000
    ∧ normalize_units_in_place yC1idem = yC1idem :=
  ⟨C1_unit_normalization.1 yC1 Metric.revenue (by decide) (by norm_num [yC1, mkYear, mkMV, mkSrc, mget]),
   C1_unit_normalization.2 yC1idem (by decide) (by norm_num [yC1idem, mkYear, mkMV, mkSrc])⟩

/-! ## C2 -/

/-- C2: `apply_eps_only` is atomic — a reply failing the gate (positive
value; snippet naming basic/diluted; scope "total" requiring "continuing
and discontinued", scope "continuing" requiring "continuing") leaves the
record untouched, a reply passing it replaces the EPS value and citation;
in the §8 accepting case the basis is "basic" and the scope "total", and
the §8 rejecting case is a silent no-op. -/
theorem C2_eps_acceptance_gate :
    (∀ (doc : List String) (reply : EpsReply) (y : YearRecord),
        ¬ (0 < reply.value
            ∧ (substr "basic" (pyLower (norm_spaces reply.source.snippet)) = true
                ∨ substr "diluted" (pyLower (norm_spaces reply.source.snippet)) = true)
            ∧ (epsScopeEff reply = "total" →
                substr "continuing and discontinued"
                  (pyLower (norm_spaces reply.source.snippet)) = true)
            ∧ (epsScopeEff reply = "continuing" →
                substr "continuing" (pyLower (norm_spaces reply.source.snippet)) = true)) →
        apply_eps_only doc reply y = y)
    ∧ (∀ (doc : List String) (reply : EpsReply) (y : YearRecord),
        (0 < reply.value
            ∧ (substr "basic" (pyLower (norm_spaces reply.source.snippet)) = true
                ∨ substr "diluted" (pyLower (norm_spaces reply.source.snippet)) = true)
            ∧ (epsScopeEff reply = "total" →
                substr "continuing and discontinued"
                  (pyLower (norm_spaces reply.source.snippet)) = true)
            ∧ (epsScopeEff reply = "continuing" →
                substr "continuing" (pyLower (norm_spaces reply.source.snippet)) = true)) →
        (apply_eps_only doc reply y).eps.value = epsRescaledValue reply
        ∧ (apply_eps_only doc reply y).eps.source
            = repair_single_source_page doc Metric.eps reply.source (epsRescaledValue reply)
        ∧ (apply_eps_only doc reply y).eps_basis
            = some (if epsBasisEff reply = "diluted" then "diluted" else "basic")
        ∧ (apply_eps_only doc reply y).eps_scope = some (epsScopeEff reply))
    ∧ ((apply_eps_only docC2 replyAccept yC2).eps.value = 52/10
        ∧ (apply_eps_only docC2 replyAccept yC2).eps.source.snippet
            = "Basic EPS: 5.20, Continuing and Discontinued operations"
        ∧ (apply_eps_only docC2 replyAccept yC2).eps_basis = some "basic"
        ∧ (apply_eps_only docC2 replyAccept yC2).eps_scope = some "total"
        ∧ apply_eps_only docC2 replyReject yC2 = yC2) := by
  refine ⟨?_, ?_, by with_unfolding_all decide⟩
  · intro doc reply y hno
    rw [apply_eps_only_eq]
    by_cases h1 : reply.value ≤ 0
    · simp [h1]
    · push_neg at h1
      by_cases h2 : substr "basic" (pyLower (norm_spaces reply.source.snippet)) = true
          ∨ substr "diluted" (pyLower (norm_spaces reply.source.snippet)) = true
      · have hg2 : (!substr "basic" (pyLower (norm_spaces reply.source.snippet))
            && !substr "diluted" (pyLower (norm_spaces reply.source.snippet))) = false := by
          rcases h2 with h | h <;> simp [h]
        have h34 : ¬((epsScopeEff reply = "total" →
            substr "continuing and discontinued"
              (pyLower (norm_spaces reply.source.snippet)) = true)
            ∧ (epsScopeEff reply = "continuing" →
                substr "continuing" (pyLower (norm_spaces reply.source.snippet)) = true)) := by
          intro hc
          exact hno ⟨h1, h2, hc.1, hc.2⟩
        rw [not_and_or] at h34
        rcases h34 with h3 | h4
        · push_neg at h3
          have hf := Bool.eq_false_iff.mpr h3.2
          simp [not_le.2 h1, hg2, h3.1, hf]
        · push_neg at h4
          have hf := Bool.eq_false_iff.mpr h4.2
          have hne : epsScopeEff reply ≠ "total" := by rw [h4.1]; decide
          simp [not_le.2 h1, hg2, h4.1, hf, hne]
      · rw [not_or] at h2
        have hb := Bool.eq_false_iff.mpr h2.1
        have hd := Bool.eq_false_iff.mpr h2.2
        simp [not_le.2 h1, hb, hd]
  · intro doc reply y hyes
    obtain ⟨h1, h2, h3, h4⟩ := hyes
    rw [apply_eps_only_eq]
    have hg2 : (!substr "basic" (pyLower (norm_spaces reply.source.snippet))
        && !substr "diluted" (pyLower (norm_spaces reply.source.snippet))) = false := by
      rcases h2 with h | h <;> simp [h]
    rw [if_neg (not_le.2 h1)]
    rw [if_neg (by simp [hg2])]
    by_cases hs : epsScopeEff reply = "total"
    · simp [hs, h3 hs]
    · by_cases hc : epsScopeEff reply = "continuing"
      · simp [hs, hc, h4 hc]
      · simp [hs, hc]

/-- Witness for C2: the §8 reply replaces value and citation with basis
"basic", scope "total"; the rejecting reply is a no-op. -/
theorem C2_eps_acceptance_gate_witness :
    (apply_eps_only docC2 replyAccept yC2).eps.value = epsRescaledValue replyAccept
    ∧ (apply_eps_only docC2 replyAccept yC2).eps_scope = some (epsScopeEff replyAccept)
    ∧ apply_eps_only docC2 replyReject yC2 = yC2 :=
  ⟨(C2_eps_acceptance_gate.2.1 docC2 replyAccept yC2
      (by with_unfolding_all decide)).1,
   (C2_eps_acceptance_gate.2.1 docC2 replyAccept yC2
      (by with_unfolding_all decide)).2.2.2,
   C2_eps_acceptance_gate.1 docC2 replyReject yC2
      (by with_unfolding_all decide)⟩

/-! ## C3 -/

/-- C3: `page_passes_constraints` returns false whenever no metric keyword
occurs in the normalized lower-cased page text, and — for metrics that have
anchors — also whenever no anchor phrase occurs. -/
theorem C3_page_gating :
    (∀ (m : Metric) (text sn : String),
        (∀ k ∈ KEYWORDS m, substr (pyLower k) (pyLower (norm_spaces text)) = false) →
        page_passes_constraints m text sn = false)
    ∧ (∀ (m : Metric) (text sn : String), hasAnchors m = true →
        (∀ a ∈ ANCHORS m, substr a (pyLower (norm_spaces text)) = false) →
        page_passes_constraints m text sn = false) := by
  constructor
  · intro m text sn h
    have hkw : ((KEYWORDS m).map pyLower).any
        (fun k => substr k (pyLower (norm_spaces text))) = false := by
      simp only [List.any_map, List.any_eq_false, Function.comp]
      intro k hk
      simpa using h k hk
    have hne : ((KEYWORDS m).map pyLower).isEmpty = false := by
      cases m <;> decide
    rw [page_passes_constraints, if_pos]
    simp [hkw, hne]
  · intro m text sn ha h
    have hanc : (ANCHORS m).any (fun a => substr a (pyLower (norm_spaces text))) = false := by
      simp only [List.any_eq_false]
      intro a haM
      simpa using h a haM
    rw [page_passes_constraints]
    split
    · rfl
    · rw [if_pos]
      simp [ha, hanc]

/-- Witness for C3: a keyword-free page fails for revenue, and a page with
the EPS keyword but no EPS anchor fails for eps. -/
theorem C3_page_gating_witness :
    page_passes_constraints Metric.revenue "hello world" "" = false
    ∧ page_passes_constraints Metric.eps "EPS table of contents" "" = false :=
  ⟨C3_page_gating.1 Metric.revenue "hello world" "" (by decide),
   C3_page_gating.2 Metric.eps "EPS table of contents" "" (by decide) (by decide)⟩

/-! ## Repair-loop preservation lemmas -/

theorem mget_mset_ne (y : YearRecord) (m m' : Metric) (v : MetricValue) (h : m ≠ m') :
    mget (mset y m' v) m = mget y m := by
  cases m <;> cases m' <;> simp_all [mget, mset]

theorem repair_step_ne (doc : List String) (acc : YearRecord × List (String × String))
    (m m' : Metric) (h : m ≠ m') : mget (repair_step doc acc m').1 m = mget acc.1 m := by
  dsimp only [repair_step]
  split
  · split
    · exact mget_mset_ne _ _ _ _ h
    · rfl
  · rfl

theorem repair_step_mem (doc : List String) (acc : YearRecord × List (String × String))
    (m' : Metric) (x : String × String) (hx : x ∈ acc.2) : x ∈ (repair_step doc acc m').2 := by
  dsimp only [repair_step]
  split
  · split
    · exact List.mem_append_left _ hx
    · exact List.mem_append_left _ hx
  · exact hx

theorem repair_fold_pres (doc : List String) (m : Metric) :
    ∀ l : List Metric, (∀ m' ∈ l, m ≠ m') →
      ∀ acc : YearRecord × List (String × String),
        mget (List.foldl (repair_step doc) acc l).1 m = mget acc.1 m
        ∧ ∀ x ∈ acc.2, x ∈ (List.foldl (repair_step doc) acc l).2 := by
  intro l
  induction l with
  | nil => exact fun _ acc => ⟨rfl, fun _ hx => hx⟩
  | cons a t ih =>
    intro h acc
    have ha : m ≠ a := h a (List.mem_cons_self a t)
    have ht := ih fun m' hm' => h m' (List.mem_cons_of_mem _ hm')
    simp only [List.foldl_cons]
    refine ⟨?_, ?_⟩
    · rw [(ht (repair_step doc acc a)).1, repair_step_ne _ _ _ _ ha]
    · intro x hx
      exact (ht _).2 x (repair_step_mem _ _ _ x hx)

theorem repair_unresolved_aux (doc : List String) (y : YearRecord) (m : Metric)
    (l1 l2 : List Metric) (hM : METRICS = l1 ++ m :: l2)
    (h1 : ∀ m' ∈ l1, m ≠ m') (h2 : ∀ m' ∈ l2, m ≠ m')
    (hp : (mget y m).source.page ≤ 0 ∨ (doc.length : Int) < (mget y m).source.page)
    (hs : find_best_page_by_snippet doc m (mget y m).source.snippet = none)
    (hn : find_best_page_by_number doc m (mget y m).value = none) :
    (metricName m, "page " ++ toString (mget y m).source.page ++ " unresolved")
        ∈ (repair_sources doc y).2
    ∧ mget (repair_sources doc y).1 m = mget y m := by
  unfold repair_sources
  rw [hM, List.foldl_append]
  have hpres1 := repair_fold_pres doc m l1 h1 (y, [])
  set acc1 := List.foldl (repair_step doc) (y, []) l1 with hacc1
  have hmg : mget acc1.1 m = mget y m := hpres1.1
  have hcond : ((mget y m).source.page ≤ 0 || ((doc.length : Int) < (mget y m).source.page))
      = true := by
    rcases hp with h | h <;> simp [h]
  have hstep : repair_step doc acc1 m
      = (acc1.1,
         acc1.2 ++ [(metricName m,
           "page " ++ toString (mget y m).source.page ++ " unresolved")]) := by
    simp [repair_step, hmg, hcond, hs, hn]
  have hpres2 := repair_fold_pres doc m l2 h2 (repair_step doc acc1 m)
  simp only [List.foldl_cons]
  constructor
  · apply hpres2.2
    rw [hstep]
    exact List.mem_append_right _ (by simp)
  · rw [hpres2.1, hstep, hmg]

/-! ## C4 -/

/-- Counterexample for C4: revenue cites the out-of-range page 2 of a
one-page document, both searches fail, the outcome "page 2 unresolved" is
recorded — but the record is left with page 2, not page 0. -/
theorem C4_counterexample :
    ((mget yC4 Metric.revenue).source.page = 2
      ∧ docC4.length = 1
      ∧ find_best_page_by_snippet docC4 Metric.revenue
          (mget yC4 Metric.revenue).source.snippet = none
      ∧ find_best_page_by_number docC4 Metric.revenue (mget yC4 Metric.revenue).value = none)
    ∧ ("revenue", "page 2 unresolved") ∈ (repair_sources docC4 yC4).2
    ∧ (repair_sources docC4 yC4).1.revenue.source.page ≠ 0 := by
  with_unfolding_all decide

/-- C4 (amended): when the cited page is absent or out of range and both
searches fail, `repair_sources` records "page P0 unresolved" for the metric
and leaves the metric's entry unchanged (the page stays P0 — in particular
0 when it was 0). -/
theorem C4_unresolved_outcome (doc : List String) (y : YearRecord) (m : Metric)
    (hp : (mget y m).source.page ≤ 0 ∨ (doc.length : Int) < (mget y m).source.page)
    (hs : find_best_page_by_snippet doc m (mget y m).source.snippet = none)
    (hn : find_best_page_by_number doc m (mget y m).value = none) :
    (metricName m, "page " ++ toString (mget y m).source.page ++ " unresolved")
        ∈ (repair_sources doc y).2
    ∧ mget (repair_sources doc y).1 m = mget y m := by
  cases m
  · exact repair_unresolved_aux doc y .revenue []
      [.ebitda, .pat, .eps, .networth, .total_assets] rfl (by decide) (by decide) hp hs hn
  · exact repair_unresolved_aux doc y .ebitda [.revenue]
      [.pat, .eps, .networth, .total_assets] rfl (by decide) (by decide) hp hs hn
  · exact repair_unresolved_aux doc y .pat [.revenue, .ebitda]
      [.eps, .networth, .total_assets] rfl (by decide) (by decide) hp hs hn
  · exact repair_unresolved_aux doc y .eps [.revenue, .ebitda, .pat]
      [.networth, .total_assets] rfl (by decide) (by decide) hp hs hn
  · exact repair_unresolved_aux doc y .networth [.revenue, .ebitda, .pat, .eps]
      [.total_assets] rfl (by decide) (by decide) hp hs hn
  · exact repair_unresolved_aux doc y .total_assets [.revenue, .ebitda, .pat, .eps, .networth]
      [] rfl (by decide) (by decide) hp hs hn

/-- Witness for the amended C4 at the concrete fixture. -/
theorem C4_unresolved_outcome_witness :
    (metricName Metric.revenue,
        "page " ++ toString (mget yC4 Metric.revenue).source.page ++ " unresolved")
        ∈ (repair_sources docC4 yC4).2
    ∧ mget (repair_sources docC4 yC4).1 Metric.revenue = mget yC4 Metric.revenue :=
  C4_unresolved_outcome docC4 yC4 Metric.revenue
    (by with_unfolding_all decide) (by with_unfolding_all decide) (by with_unfolding_all decide)

/-! ## C5 -/

theorem searchPages_first (pred : String → Bool) :
    ∀ (l : List String) (i k : Nat), k < l.length →
      (∀ j, j < k → pred (l.getD j "") = false) →
      pred (l.getD k "") = true →
      searchPages pred l i = some (i + k + 1) := by
  intro l
  induction l with
  | nil => intro i k hk; exact absurd hk (by simp)
  | cons t rest ih =>
    intro i k hk hbefore hhit
    cases k with
    | zero =>
      simp only [List.getD_cons_zero] at hhit
      simp [searchPages, hhit]
    | succ k' =>
      have h0 : pred t = false := by
        have := hbefore 0 (Nat.succ_pos k')
        simpa using this
      have hrec := ih (i + 1) k' (Nat.lt_of_succ_lt_succ hk)
        (fun j hj => by
          have := hbefore (j + 1) (Nat.succ_lt_succ hj)
          simpa using this)
        (by simpa using hhit)
      have hunf : searchPages pred (t :: rest) i = searchPages pred rest (i + 1) := by
        simp [searchPages, h0]
      rw [hunf, hrec]
      congr 1
      omega

set_option maxRecDepth 8000 in
/-- Counterexample for C5: "1,234,567" occurs only on page 7 of `docC5`, the
revenue citation has page 0 and value 1234567, yet `repair_sources` leaves
the page at 0 (page 7 carries no revenue keyword, so the constraint gate
rejects it) instead of resolving it to 7. -/
theorem C5_counterexample :
    (yC5.revenue.source.page = 0
      ∧ yC5.revenue.value = 1234567
      ∧ docC5.length = 7
      ∧ (∀ j, j < docC5.length → substr "1,234,567" (docC5.getD j "") = true → j = 6)
      ∧ substr "1,234,567" (docC5.getD 6 "") = true)
    ∧ (repair_sources docC5 yC5).1.revenue.source.page = 0
    ∧ ("revenue", "page 0 unresolved") ∈ (repair_sources docC5 yC5).2 := by
  have hn0 : find_best_page_by_number docC5 Metric.revenue (mget yC5 Metric.revenue).value
      = none := by
    decide
  have haux := repair_unresolved_aux docC5 yC5 Metric.revenue []
    [.ebitda, .pat, .eps, .networth, .total_assets] rfl (by decide) (by decide)
    (Or.inl (by decide))
    (by with_unfolding_all decide)
    hn0
  refine ⟨by decide, ?_, ?_⟩
  · have h2 := haux.2
    show (mget (repair_sources docC5 yC5).1 Metric.revenue).source.page = 0
    rw [h2]
    decide
  · have h1 := haux.1
    have heq : (metricName Metric.revenue,
        "page " ++ toString (mget yC5 Metric.revenue).source.page ++ " unresolved")
        = ("revenue", "page 0 unresolved") := by decide
    rw [heq] at h1
    exact h1

/-- C5 (amended): if additionally the cited snippet is non-discriminative
(shorter than 10 characters once normalized), page 7 passes the metric's
constraint gate, and no earlier page both passes the gate and contains one
of the candidate renderings of 1234567, then `repair_sources` resolves the
revenue citation's page to 7. -/
theorem C5_number_repair (doc : List String) (y : YearRecord)
    (hlen : 7 ≤ doc.length)
    (hpage : y.revenue.source.page = 0)
    (hsn : (norm_spaces y.revenue.source.snippet).length < 10)
    (hval : y.revenue.value = 1234567)
    (h7 : page_passes_constraints Metric.revenue (doc.getD 6 "") "" = true)
    (h7c : substr "1,234,567" (doc.getD 6 "") = true)
    (hearlier : ∀ j, j < 6 →
        (page_passes_constraints Metric.revenue (doc.getD j "") ""
          && (number_candidates 1234567).any
              (fun c => substr c (doc.getD j ""))) = false) :
    (repair_sources doc y).1.revenue.source.page = 7
    ∧ ("revenue", "page 0 -> 7") ∈ (repair_sources doc y).2 := by
  have hsnip : find_best_page_by_snippet doc Metric.revenue y.revenue.source.snippet = none := by
    unfold find_best_page_by_snippet
    rw [if_pos (by simp [hsn])]
  have hnum : find_best_page_by_number doc Metric.revenue 1234567 = some 7 := by
    unfold find_best_page_by_number
    rw [if_neg (by norm_num)]
    have hs := searchPages_first
      (fun page_text =>
        page_passes_constraints Metric.revenue page_text ""
        && (number_candidates 1234567).any (fun c => substr c page_text))
      doc 0 6 (by omega) hearlier
      (by
        refine (Bool.and_eq_true ..).mpr ⟨h7, ?_⟩
        refine List.any_eq_true.mpr ⟨"1,234,567", ?_, h7c⟩
        with_unfolding_all decide)
    simpa using hs
  have hnum' : find_best_page_by_number doc Metric.revenue y.revenue.value = some 7 := by
    rw [hval]; exact hnum
  have hstep : repair_step doc (y, []) Metric.revenue
      = (mset y Metric.revenue
          { y.revenue with source := { y.revenue.source with page := ((7 : Nat) : Int) } },
         [("revenue",
           "page " ++ toString y.revenue.source.page ++ " -> " ++ toString (7 : Nat))]) := by
    dsimp only [repair_step, mget, metricName]
    rw [if_pos (by simp [hpage])]
    rw [hsnip, hnum']
    rfl
  have hpres := repair_fold_pres doc Metric.revenue
    [.ebitda, .pat, .eps, .networth, .total_assets] (by decide)
    (repair_step doc (y, []) Metric.revenue)
  have hfold : repair_sources doc y
      = List.foldl (repair_step doc) (repair_step doc (y, []) Metric.revenue)
          [.ebitda, .pat, .eps, .networth, .total_assets] := rfl
  constructor
  · have h1 := hpres.1
    have h1' : (repair_sources doc y).1.revenue
        = { y.revenue with source := { y.revenue.source with page := ((7 : Nat) : Int) } } := by
      rw [hfold, hstep]
      rw [hstep] at h1
      exact h1
    rw [h1']
    rfl
  · rw [hfold]
    apply hpres.2
    rw [hstep, hpage]
    simp only [List.mem_singleton]
    decide

set_option maxRecDepth 8000 in
/-- Witness for the amended C5 at the concrete fixture: page 7 of `docC5w`
carries a revenue keyword and the grouped rendering, so repair resolves the
citation to page 7. -/
theorem C5_number_repair_witness :
    (repair_sources docC5w yC5).1.revenue.source.page = 7
    ∧ ("revenue", "page 0 -> 7") ∈ (repair_sources docC5w yC5).2 := by
  have h7 : page_passes_constraints Metric.revenue (docC5w.getD 6 "") "" = true := by
    decide
  have h7c : substr "1,234,567" (docC5w.getD 6 "") = true := by
    decide
  have hearlier : ∀ j, j < 6 →
      (page_passes_constraints Metric.revenue (docC5w.getD j "") ""
        && (number_candidates 1234567).any (fun c => substr c (docC5w.getD j ""))) = false := by
    decide
  have hlen : 7 ≤ docC5w.length := by decide
  have hpage : yC5.revenue.source.page = 0 := by decide
  have hsn : (norm_spaces yC5.revenue.source.snippet).length < 10 := by decide
  have hval : yC5.revenue.value = 1234567 := by decide
  exact C5_number_repair docC5w yC5 hlen hpage hsn hval h7 h7c hearlier

/-! ## String prefix/substring helpers for message classification -/

theorem strBegins_append (p a b : String) (h : strBegins p a = true) :
    strBegins p (a ++ b) = true := by
  unfold strBegins at *
  rw [List.isPrefixOf_iff_prefix] at h ⊢
  rw [String.data_append]
  exact h.trans (List.prefix_append _ _)

theorem hasSub_append_right (n b : List Char) (h : hasSub n b = true) :
    ∀ a : List Char, hasSub n (a ++ b) = true := by
  intro a
  induction a with
  | nil => simpa using h
  | cons c cs ih =>
    show hasSub n (c :: (cs ++ b)) = true
    unfold hasSub
    simp [ih]

theorem substr_append_right (n a b : String) (h : substr n b = true) :
    substr n (a ++ b) = true := by
  unfold substr at *
  rw [String.data_append]
  exact hasSub_append_right _ _ h _

/-! ## C6 classification lemmas -/

theorem patEpsPairMsg_missing (mults : List ℚ) (tol : ℚ) (y0 y1 : String) (s0 s1 : ℚ)
    (h : s0 ≤ 0 ∨ s1 ≤ 0) :
    patEpsPairMsg mults tol (y0, s0) (y1, s1) = patEpsMissingMsg y0 y1 := by
  simp [patEpsPairMsg, h]

theorem patEpsPairMsg_info (y0 y1 : String) (s0 s1 : ℚ) (h0 : 0 < s0) (h1 : 0 < s1)
    (h2 : 2 * (1 - 1/4) ≤ s1 / s0) (h3 : s1 / s0 ≤ 2 * (1 + 1/4)) :
    patEpsPairMsg [2] (1/4) (y0, s0) (y1, s1) = patEpsInfoMsg y0 y1 (s1 / s0) 2 s0 s1 := by
  have hno : ¬(s0 ≤ 0 ∨ s1 ≤ 0) := by push_neg; exact ⟨h0, h1⟩
  unfold patEpsPairMsg
  rw [if_neg hno]
  simp only [List.find?]
  rw [decide_eq_true ⟨h2, h3⟩]

theorem patEpsPairMsg_warn (y0 y1 : String) (s0 s1 : ℚ) (h0 : 0 < s0) (h1 : 0 < s1)
    (hno2 : ¬(2 * (1 - 1/4) ≤ s1 / s0 ∧ s1 / s0 ≤ 2 * (1 + 1/4)))
    (hc : 12/100 < |s1 - s0| / s0) :
    patEpsPairMsg [2] (1/4) (y0, s0) (y1, s1)
      = patEpsWarnMsg y0 y1 (|s1 - s0| / s0) (s1 / s0) := by
  have hno : ¬(s0 ≤ 0 ∨ s1 ≤ 0) := by push_neg; exact ⟨h0, h1⟩
  unfold patEpsPairMsg
  rw [if_neg hno]
  simp only [List.find?]
  rw [decide_eq_false hno2]
  simp [hc]

theorem patEpsPairMsg_ok (y0 y1 : String) (s0 s1 : ℚ) (h0 : 0 < s0) (h1 : 0 < s1)
    (hno2 : ¬(2 * (1 - 1/4) ≤ s1 / s0 ∧ s1 / s0 ≤ 2 * (1 + 1/4)))
    (hc : ¬ 12/100 < |s1 - s0| / s0) :
    patEpsPairMsg [2] (1/4) (y0, s0) (y1, s1) = patEpsOkMsg y0 y1 (|s1 - s0| / s0) := by
  have hno : ¬(s0 ≤ 0 ∨ s1 ≤ 0) := by push_neg; exact ⟨h0, h1⟩
  unfold patEpsPairMsg
  rw [if_neg hno]
  simp only [List.find?]
  rw [decide_eq_false hno2]
  simp [hc]

theorem patEpsLoop_eq (mults : List ℚ) (tol : ℚ) :
    ∀ (rest : List (String × ℚ)) (r : String × ℚ),
      patEpsLoop mults tol r rest
        = ((r :: rest).zip rest).map (fun p => patEpsPairMsg mults tol p.1 p.2) := by
  intro rest
  induction rest with
  | nil => intro r; simp [patEpsLoop]
  | cons b t ih =>
    intro r
    simp [patEpsLoop, ih b]

theorem run_pat_eps_structure (ys : List YearRecord) (mults : List ℚ) (tol : ℚ) :
    run_pat_eps_checks ys mults tol
      = ((sortRows (ys.map patEpsRow)).zip (sortRows (ys.map patEpsRow)).tail).map
          (fun p => patEpsPairMsg mults tol p.1 p.2) := by
  unfold run_pat_eps_checks
  cases h : sortRows (ys.map patEpsRow) with
  | nil => simp
  | cons r rest => simp [patEpsLoop_eq]

/-! ## C6 -/

/-- C6: `run_pat_eps_checks` (with multipliers `{2.0}`, tolerance 0.25)
emits exactly one message per adjacent pair of label-sorted rows; a pair
with a missing/zero implied share count yields an explicit "cannot
validate" warning; both counts positive with ratio within ±25% of 2.0
yields an informational note; otherwise a warning exactly when the
relative change exceeds 12%, else an OK note.  In particular counts 1e9
then 2.05e9 (ratio 2.05) yield the informational note, not a warning. -/
theorem C6_implied_shares_check :
    (∀ ys : List YearRecord,
        run_pat_eps_checks ys [2] (1/4)
          = ((sortRows (ys.map patEpsRow)).zip (sortRows (ys.map patEpsRow)).tail).map
              (fun p => patEpsPairMsg [2] (1/4) p.1 p.2))
    ∧ (∀ (y0 y1 : String) (s0 s1 : ℚ),
        ((s0 ≤ 0 ∨ s1 ≤ 0) →
            patEpsPairMsg [2] (1/4) (y0, s0) (y1, s1) = patEpsMissingMsg y0 y1
            ∧ strBegins "WARN" (patEpsMissingMsg y0 y1) = true
            ∧ substr "cannot validate" (patEpsMissingMsg y0 y1) = true)
        ∧ (0 < s0 → 0 < s1 → 2 * (1 - 1/4) ≤ s1 / s0 → s1 / s0 ≤ 2 * (1 + 1/4) →
            patEpsPairMsg [2] (1/4) (y0, s0) (y1, s1)
              = patEpsInfoMsg y0 y1 (s1 / s0) 2 s0 s1
            ∧ strBegins "INFO" (patEpsInfoMsg y0 y1 (s1 / s0) 2 s0 s1) = true)
        ∧ (0 < s0 → 0 < s1 → ¬(2 * (1 - 1/4) ≤ s1 / s0 ∧ s1 / s0 ≤ 2 * (1 + 1/4)) →
            (12/100 < |s1 - s0| / s0 →
                patEpsPairMsg [2] (1/4) (y0, s0) (y1, s1)
                  = patEpsWarnMsg y0 y1 (|s1 - s0| / s0) (s1 / s0)
                ∧ strBegins "WARN" (patEpsWarnMsg y0 y1 (|s1 - s0| / s0) (s1 / s0)) = true)
            ∧ (¬ 12/100 < |s1 - s0| / s0 →
                patEpsPairMsg [2] (1/4) (y0, s0) (y1, s1) = patEpsOkMsg y0 y1 (|s1 - s0| / s0)
                ∧ strBegins "OK" (patEpsOkMsg y0 y1 (|s1 - s0| / s0)) = true)))
    ∧ (patEpsRow yA6 = ("2019", 1000000000)
        ∧ patEpsRow yB6 = ("2020", 2050000000)
        ∧ run_pat_eps_checks [yA6, yB6] [2] (1/4)
          = ["INFO [PAT/EPS] Implied shares 2019->2020 ≈ 2.05x (expected ~2.0x). (~1.000B -> 2.050B shares)"]
        ∧ strBegins "WARN"
            "INFO [PAT/EPS] Implied shares 2019->2020 ≈ 2.05x (expected ~2.0x). (~1.000B -> 2.050B shares)"
          = false) := by
  have hr1 : patEpsRow yA6 = ("2019", 1000000000) := by
    norm_num [patEpsRow, patAttribVal, yA6, mkYear, mkMV, mkSrc, implied_shares, CRORE_TO_INR]
  have hr2 : patEpsRow yB6 = ("2020", 2050000000) := by
    norm_num [patEpsRow, patAttribVal, yB6, mkYear, mkMV, mkSrc, implied_shares, CRORE_TO_INR]
  refine ⟨fun ys => run_pat_eps_structure ys [2] (1/4), fun y0 y1 s0 s1 => ?_, hr1, hr2, ?_, by decide⟩
  · refine ⟨fun h => ⟨patEpsPairMsg_missing _ _ _ _ _ _ h, ?_, ?_⟩,
        fun h0 h1 h2 h3 => ⟨patEpsPairMsg_info _ _ _ _ h0 h1 h2 h3, ?_⟩,
        fun h0 h1 hno2 => ⟨fun hc => ⟨patEpsPairMsg_warn _ _ _ _ h0 h1 hno2 hc, ?_⟩,
          fun hc => ⟨patEpsPairMsg_ok _ _ _ _ h0 h1 hno2 hc, ?_⟩⟩⟩
    · unfold patEpsMissingMsg
      apply strBegins_append
      apply strBegins_append
      apply strBegins_append
      apply strBegins_append
      decide
    · unfold patEpsMissingMsg
      apply substr_append_right
      decide
    · unfold patEpsInfoMsg
      repeat apply strBegins_append
      decide
    · unfold patEpsWarnMsg
      repeat apply strBegins_append
      decide
    · unfold patEpsOkMsg
      repeat apply strBegins_append
      decide
  · have hle : pyStrLe "2019" "2020" = true := by decide
    have hsort : sortRows ([yA6, yB6].map patEpsRow)
        = [("2019", 1000000000), ("2020", 2050000000)] := by
      simp [sortRows, insRow, hr1, hr2, hle]
    have hmsg : patEpsPairMsg [2] (1/4) ("2019", 1000000000) ("2020", 2050000000)
        = patEpsInfoMsg "2019" "2020" ((2050000000 : ℚ) / 1000000000) 2
            1000000000 2050000000 :=
      patEpsPairMsg_info _ _ _ _ (by norm_num) (by norm_num) (by norm_num) (by norm_num)
    have f1 : formatFixed ((2050000000 : ℚ) / 1000000000) 2 = "2.05" := by
      with_unfolding_all decide
    have f2 : floatRepr (2 : ℚ) = "2.0" := by with_unfolding_all decide
    have f3 : formatFixed ((1000000000 : ℚ) / 1000000000) 3 = "1.000" := by
      with_unfolding_all decide
    have f4 : formatFixed ((2050000000 : ℚ) / 1000000000) 3 = "2.050" := by
      with_unfolding_all decide
    rw [run_pat_eps_structure, hsort]
    simp only [List.tail_cons, List.zip_cons_cons, List.zip_nil_right, List.map]
    rw [hmsg]
    unfold patEpsInfoMsg
    rw [f1, f2, f3, f4]
    rfl

/-- Witness for C6: the missing-data warning at a zero count, and the
informational note at counts 1e9 and 2.05e9. -/
theorem C6_implied_shares_check_witness :
    patEpsPairMsg [2] (1/4) ("2018", 0) ("2019", 5) = patEpsMissingMsg "2018" "2019"
    ∧ patEpsPairMsg [2] (1/4) ("2019", 1000000000) ("2020", 2050000000)
        = patEpsInfoMsg "2019" "2020" ((2050000000 : ℚ) / 1000000000) 2
            1000000000 2050000000 :=
  ⟨((C6_implied_shares_check.2.1 "2018" "2019" 0 5).1 (Or.inl le_rfl)).1,
   ((C6_implied_shares_check.2.1 "2019" "2020" 1000000000 2050000000).2.1
      (by norm_num) (by norm_num) (by norm_num) (by norm_num)).1⟩

/-! ## C7 -/

theorem run_yoy_pair (a b : YearRecord) : run_yoy_checks [a, b] = yoyPairMsgs a b := by
  simp [run_yoy_checks, yoyLoop]

theorem gw_slot_mem (T name ay b_y : String) (x0 x1 limit : ℚ)
    (hT : T = yoyWarnMsg name ay b_y ((x1 - x0) / x0)) :
    (T ∈ (match yoy_growth x0 x1 with
          | none => []
          | some g => if limit < |g| then [yoyWarnMsg name ay b_y g] else []))
      ↔ (x0 ≠ 0 ∧ limit < |(x1 - x0) / x0|) := by
  unfold yoy_growth
  by_cases h0 : x0 = 0
  · simp [h0]
  · by_cases hl : limit < |(x1 - x0) / x0|
    · simp [h0, hl, hT]
    · simp [h0, hl, hT]

theorem gw_slot_not_mem (T name ay b_y : String) (x0 x1 limit : ℚ)
    (hT : ∀ g : ℚ, T ≠ yoyWarnMsg name ay b_y g) :
    T ∉ (match yoy_growth x0 x1 with
         | none => []
         | some g => if limit < |g| then [yoyWarnMsg name ay b_y g] else []) := by
  cases hg : yoy_growth x0 x1 with
  | none => simp
  | some g =>
    dsimp only
    split
    · simp [hT g]
    · simp

theorem margin_slot_not_mem (T b_y : String) (c : Prop) [Decidable c] (c1 c2 : Prop)
    [Decidable c1] [Decidable c2] (em pm : ℚ)
    (h1 : ∀ m : ℚ, T ≠ marginWarnMsg "EBITDA" b_y m)
    (h2 : ∀ m : ℚ, T ≠ marginWarnMsg "PAT" b_y m) :
    T ∉ (if c then
          (if c1 then [marginWarnMsg "EBITDA" b_y em] else [])
            ++ (if c2 then [marginWarnMsg "PAT" b_y pm] else [])
         else []) := by
  split
  · intro hmem
    rcases List.mem_append.mp hmem with h | h
    · revert h
      split
      · simp [h1 em]
      · simp
    · revert h
      split
      · simp [h2 pm]
      · simp
  · simp

theorem mem_yoy_rev_iff (a b : YearRecord) :
    (yoyWarnMsg "Revenue" a.year_label b.year_label
        ((b.revenue.value - a.revenue.value) / a.revenue.value) ∈ yoyPairMsgs a b)
      ↔ (a.revenue.value ≠ 0
          ∧ 35/100 < |(b.revenue.value - a.revenue.value) / a.revenue.value|) := by
  unfold yoyPairMsgs
  dsimp only
  rw [List.mem_append, List.mem_append, List.mem_append]
  constructor
  · rintro (((h | h) | h) | h)
    · exact (gw_slot_mem _ _ _ _ _ _ _ rfl).mp h
    · exact absurd h (gw_slot_not_mem _ _ _ _ _ _ _
        (fun g => by simp [yoyWarnMsg, String.ext_iff, String.data_append]))
    · exact absurd h (gw_slot_not_mem _ _ _ _ _ _ _
        (fun g => by simp [yoyWarnMsg, String.ext_iff, String.data_append]))
    · exact absurd h (margin_slot_not_mem _ _ _ _ _ _ _
        (fun m => by simp [yoyWarnMsg, marginWarnMsg, String.ext_iff, String.data_append])
        (fun m => by simp [yoyWarnMsg, marginWarnMsg, String.ext_iff, String.data_append]))
  · intro hc
    exact Or.inl (Or.inl (Or.inl ((gw_slot_mem _ _ _ _ _ _ _ rfl).mpr hc)))

theorem mem_yoy_eb_iff (a b : YearRecord) :
    (yoyWarnMsg "EBITDA" a.year_label b.year_label
        ((b.ebitda.value - a.ebitda.value) / a.ebitda.value) ∈ yoyPairMsgs a b)
      ↔ (a.ebitda.value ≠ 0
          ∧ 50/100 < |(b.ebitda.value - a.ebitda.value) / a.ebitda.value|) := by
  unfold yoyPairMsgs
  dsimp only
  rw [List.mem_append, List.mem_append, List.mem_append]
  constructor
  · rintro (((h | h) | h) | h)
    · exact absurd h (gw_slot_not_mem _ _ _ _ _ _ _
        (fun g => by simp [yoyWarnMsg, String.ext_iff, String.data_append]))
    · exact (gw_slot_mem _ _ _ _ _ _ _ rfl).mp h
    · exact absurd h (gw_slot_not_mem _ _ _ _ _ _ _
        (fun g => by simp [yoyWarnMsg, String.ext_iff, String.data_append]))
    · exact absurd h (margin_slot_not_mem _ _ _ _ _ _ _
        (fun m => by simp [yoyWarnMsg, marginWarnMsg, String.ext_iff, String.data_append])
        (fun m => by simp [yoyWarnMsg, marginWarnMsg, String.ext_iff, String.data_append]))
  · intro hc
    exact Or.inl (Or.inl (Or.inr ((gw_slot_mem _ _ _ _ _ _ _ rfl).mpr hc)))

theorem mem_yoy_pat_iff (a b : YearRecord) :
    (yoyWarnMsg "PAT" a.year_label b.year_label
        ((b.pat.value - a.pat.value) / a.pat.value) ∈ yoyPairMsgs a b)
      ↔ (a.pat.value ≠ 0
          ∧ 60/100 < |(b.pat.value - a.pat.value) / a.pat.value|) := by
  unfold yoyPairMsgs
  dsimp only
  rw [List.mem_append, List.mem_append, List.mem_append]
  constructor
  · rintro (((h | h) | h) | h)
    · exact absurd h (gw_slot_not_mem _ _ _ _ _ _ _
        (fun g => by simp [yoyWarnMsg, String.ext_iff, String.data_append]))
    · exact absurd h (gw_slot_not_mem _ _ _ _ _ _ _
        (fun g => by simp [yoyWarnMsg, String.ext_iff, String.data_append]))
    · exact (gw_slot_mem _ _ _ _ _ _ _ rfl).mp h
    · exact absurd h (margin_slot_not_mem _ _ _ _ _ _ _
        (fun m => by simp [yoyWarnMsg, marginWarnMsg, String.ext_iff, String.data_append])
        (fun m => by simp [yoyWarnMsg, marginWarnMsg, String.ext_iff, String.data_append]))
  · intro hc
    exact Or.inl (Or.inr ((gw_slot_mem _ _ _ _ _ _ _ rfl).mpr hc))

/-- C7: for each adjacent pair, `run_yoy_checks` computes growth
`(curr - prev)/prev` per metric, skips a metric whose previous value is
zero, and emits that metric's growth warning exactly when `|growth|`
exceeds its threshold (0.35 revenue, 0.50 EBITDA, 0.60 PAT); revenue
100 → 145 yields exactly the revenue warning when EBITDA/PAT stay in
bounds. -/
theorem C7_yoy_growth_checks :
    (∀ a b : YearRecord,
        ((yoyWarnMsg "Revenue" a.year_label b.year_label
            ((b.revenue.value - a.revenue.value) / a.revenue.value) ∈ run_yoy_checks [a, b])
          ↔ (a.revenue.value ≠ 0
              ∧ 35/100 < |(b.revenue.value - a.revenue.value) / a.revenue.value|))
        ∧ ((yoyWarnMsg "EBITDA" a.year_label b.year_label
            ((b.ebitda.value - a.ebitda.value) / a.ebitda.value) ∈ run_yoy_checks [a, b])
          ↔ (a.ebitda.value ≠ 0
              ∧ 50/100 < |(b.ebitda.value - a.ebitda.value) / a.ebitda.value|))
        ∧ ((yoyWarnMsg "PAT" a.year_label b.year_label
            ((b.pat.value - a.pat.value) / a.pat.value) ∈ run_yoy_checks [a, b])
          ↔ (a.pat.value ≠ 0
              ∧ 60/100 < |(b.pat.value - a.pat.value) / a.pat.value|)))
    ∧ run_yoy_checks [yA7, yB7] = ["WARN [YoY] Revenue 2019->2020 looks large: 45.0%"] := by
  refine ⟨fun a b => ?_, by with_unfolding_all decide⟩
  rw [run_yoy_pair]
  exact ⟨mem_yoy_rev_iff a b, mem_yoy_eb_iff a b, mem_yoy_pat_iff a b⟩

/-- Witness for C7: the 45% revenue growth warning is emitted for the
concrete 100 → 145 pair. -/
theorem C7_yoy_growth_checks_witness :
    yoyWarnMsg "Revenue" yA7.year_label yB7.year_label
        ((yB7.revenue.value - yA7.revenue.value) / yA7.revenue.value)
      ∈ run_yoy_checks [yA7, yB7] :=
  (C7_yoy_growth_checks.1 yA7 yB7).1.mpr
    ⟨by decide, by with_unfolding_all decide⟩

/-! ## C9 -/

/-- C9: for an adjacent pair, a share-count ratio in [1.7, 2.3] (both
years with positive EPS and positive PAT attributable to owners)
suppresses the basis check — no message is emitted; otherwise, when the
current year's EPS snippet echoes a prior-year EPS (second decimal
number) and the previous year's extracted EPS is positive and differs
from the echo by more than 10% relatively, exactly one basis-mismatch
warning is emitted. -/
theorem C9_eps_basis_continuity :
    ∀ a b : YearRecord, a.year_label ≠ b.year_label →
      ((0 < a.eps.value → 0 < b.eps.value →
          0 < patAttribVal a → 0 < patAttribVal b →
          17/10 ≤ implied_shares (patAttribVal b) b.eps.value
                    / implied_shares (patAttribVal a) a.eps.value →
          implied_shares (patAttribVal b) b.eps.value
              / implied_shares (patAttribVal a) a.eps.value ≤ 23/10 →
          run_eps_basis_checks [a, b] = [])
      ∧ (is_share_base_change_year a b = false →
          ∀ x : ℚ, eps_snippet_prior_value b.eps.source.snippet = some x →
            0 < a.eps.value → 1/10 < |x - a.eps.value| / a.eps.value →
            run_eps_basis_checks [a, b]
              = [epsBasisWarnMsg b.year_label a.year_label x a.eps.value])) := by
  intro a b hne
  have hla : byYearLookup [a, b] a.year_label = some a := by
    simp [byYearLookup, Ne.symm hne]
  have hlb : byYearLookup [a, b] b.year_label = some b := by
    simp [byYearLookup]
  have hrun : run_eps_basis_checks [a, b]
      = epsBasisPairMsgs [a, b] a.year_label b.year_label := by
    simp [run_eps_basis_checks, epsBasisLoop]
  constructor
  · intro h1 h2 h3 h4 h5 h6
    have hs0 : 0 < implied_shares (patAttribVal a) a.eps.value := by
      unfold implied_shares
      rw [if_neg (by push_neg; exact ⟨h3, h1⟩)]
      have hc : (0 : ℚ) < CRORE_TO_INR := by norm_num [CRORE_TO_INR]
      exact div_pos (mul_pos h3 hc) h1
    have hshare : is_share_base_change_year a b = true := by
      unfold is_share_base_change_year
      rw [if_neg (by push_neg; exact ⟨h1, h2, h3, h4⟩)]
      rw [if_neg (not_le.2 hs0)]
      exact decide_eq_true ⟨h5, h6⟩
    rw [hrun]
    unfold epsBasisPairMsgs
    rw [hla, hlb]
    simp [hshare]
  · intro hfalse x hx h1 h2
    rw [hrun]
    unfold epsBasisPairMsgs
    rw [hla, hlb]
    dsimp only
    rw [if_neg (by simp [hfalse]), hx]
    dsimp only
    rw [if_pos ⟨h1, h2⟩]

/-- Witness for C9: the 2020 snippet echoes prior EPS 4.00 while the
extracted 2019 EPS is 5 (20% off), with no share-base change, so exactly
one basis-mismatch warning is emitted. -/
theorem C9_eps_basis_continuity_witness :
    run_eps_basis_checks [yA9, yB9]
      = [epsBasisWarnMsg yB9.year_label yA9.year_label 4 yA9.eps.value] :=
  (C9_eps_basis_continuity yA9 yB9 (by decide)).2
    (by with_unfolding_all decide) 4
    (by with_unfolding_all decide) (by decide)
    (by with_unfolding_all decide)

/-! ## C8 -/

/-- C8: `needs_eps_fix` is true exactly when the EPS value is non-positive,
or the normalized lower-cased snippet names neither basic nor diluted, or
it names diluted without basic; in particular the snippet
"Diluted EPS: 5.20" with a positive value triggers. -/
theorem C8_eps_fix_trigger :
    (∀ y : YearRecord,
        needs_eps_fix y = true ↔
          (y.eps.value ≤ 0
            ∨ (substr "basic" (pyLower (norm_spaces y.eps.source.snippet)) = false
               ∧ substr "diluted" (pyLower (norm_spaces y.eps.source.snippet)) = false)
            ∨ (substr "diluted" (pyLower (norm_spaces y.eps.source.snippet)) = true
               ∧ substr "basic" (pyLower (norm_spaces y.eps.source.snippet)) = false)))
    ∧ (0 < yC8.eps.value ∧ needs_eps_fix yC8 = true) := by
  refine ⟨fun y => ?_, by with_unfolding_all decide, by with_unfolding_all decide⟩
  simp only [needs_eps_fix, eps_snippet_is_diluted]
  split_ifs with h1 h2 h3 <;>
    simp_all [Bool.and_eq_true, Bool.not_eq_true']

/-! ## C10 -/

/-- C10: a diluted-only, continuing-scope reply passes the `apply_eps_only`
gate and is installed as the record's EPS, yet `needs_eps_fix` still holds
on the result — acceptance does not clear the diluted-only trigger. -/
theorem C10_accept_without_clearing_trigger :
    (apply_eps_only docC2 replyC10 yC2).eps.value = 15/2
    ∧ (apply_eps_only docC2 replyC10 yC2).eps.source.snippet
        = "Diluted EPS from Continuing Operations: 7.50"
    ∧ (apply_eps_only docC2 replyC10 yC2).eps_basis = some "diluted"
    ∧ (apply_eps_only docC2 replyC10 yC2).eps_scope = some "continuing"
    ∧ yC2.eps.value ≠ 15/2
    ∧ needs_eps_fix (apply_eps_only docC2 replyC10 yC2) = true := by
  with_unfolding_all decide

end IbAnalyst
